import Mathlib

/-!
Shallow embedding of the qri-io/errors Go package (src/error.go).

The package defines:
  * a process-wide code registry mapping a `Code` (a Go `int`) to
    `codeDetails` (an HTTP status and a short label string), with
    `RegisterCode`, `CodeString` and `CodeHTTPStatus`;
  * a rich `Error` value carrying a code, an optional friendly template,
    an optional fix hint, a list of data values and a wrapped cause, with
    constructors `New`, `NewFriendly`, `NewFriendlyFix`, `Wrap`,
    `WrapFriendly`, `WrapFriendlyFix` and methods `Error`, `Cause`,
    `Code`, `Fix`, `Friendly`;
  * `Cause`, a proxy for `github.com/pkg/errors.Cause`.

Go's mutable global `codePool` map is modelled by explicit state passing:
every function that reads or writes the registry takes it as an argument,
and `RegisterCode` returns the new registry alongside its error result.
Go `error` interface values are modelled by the inductive `GoError`
(covering the package's own rich errors, the `pkg/errors` wrapper shapes
it builds on, and plain errors with no cause capability); a possibly-nil
`error` is `Option GoError`.  A method call that would dereference a nil
interface (a Go panic) is modelled by an `Option String` result of `none`.
-/

namespace QriErrors

/-- Data values passed variadically to the constructors are Go
`interface{}` values rendered with `%v`; the package's tests use strings
and ints, so those are the shapes modelled. -/
inductive GoValue where
  | str (s : String)
  | int (n : Int)
deriving DecidableEq, Repr

/-- Rendering of a data value by `fmt.Sprintf("%v", d)`: a string renders
as itself, an int in decimal. -/
def GoValue.render : GoValue → String
  | .str s => s
  | .int n => toString n

/-- codeDetails from src/error.go: the HTTP status and label registered
for a code. -/
structure codeDetails where
  httpStatus : Int
  str : String
deriving DecidableEq, Repr

/-- The registry state: Go's `map[Code]codeDetails`, modelled as an
association list over the integer code. -/
abbrev Registry := List (Int × codeDetails)

/-- Map lookup `codePool[c]`. -/
def lookupCode : Registry → Int → Option codeDetails
  | [], _ => none
  | (k, d) :: rest, c => if k = c then some d else lookupCode rest c

def CodeUnknown : Int := 0
def CodeGeneric : Int := 1
def CodeInvalidSyntax : Int := 2
def CodeInvalidArgs : Int := 3
def CodeUnauthorized : Int := 4
def CodeForbidden : Int := 5
def CodeNotFound : Int := 6
def CodeUnavailable : Int := 7

/-- The initial contents of the global `codePool` map. -/
def codePool : Registry :=
  [(CodeUnknown, ⟨500, "error"⟩),
   (CodeGeneric, ⟨500, "error"⟩),
   (CodeInvalidSyntax, ⟨400, "syntax"⟩),
   (CodeInvalidArgs, ⟨400, "arguments"⟩),
   (CodeUnauthorized, ⟨401, "auth"⟩),
   (CodeForbidden, ⟨403, "auth"⟩),
   (CodeNotFound, ⟨404, "missing"⟩),
   (CodeUnavailable, ⟨503, "unavailable"⟩)]

/-- CodeString from src/error.go: the registered label, defaulting to
"error". -/
def CodeString (pool : Registry) (c : Int) : String :=
  match lookupCode pool c with
  | some s => s.str
  | none => "error"

/-- CodeHTTPStatus from src/error.go: the registered status, defaulting
to 500. -/
def CodeHTTPStatus (pool : Registry) (c : Int) : Int :=
  match lookupCode pool c with
  | some s => s.httpStatus
  | none => 500

/-- Go `error` interface values reachable in this package: the package's
own rich Error (the `rich` constructor, whose `cause` field is a possibly
nil `error`), the `pkg/errors` shapes `fundamental` (from `errors.New`),
`withStack` and `withMessage` (from `errors.Wrap`), and a `plain` error
with no `Cause() error` method. Stack traces carry no observable content
for these claims and are omitted from `fundamental`/`withStack`. -/
inductive GoError where
  | fundamental (msg : String)
  | withStack (cause : GoError)
  | withMessage (cause : GoError) (msg : String)
  | plain (msg : String)
  | rich (code : Int) (friendly : String) (fix : String)
      (data : List GoValue) (cause : Option GoError)

/-- Whether a value is the package's rich Error type (a Go type assertion
`err.(*Error)` succeeding). -/
def isRich : GoError → Bool
  | .rich _ _ _ _ _ => true
  | _ => false

/-- pkg/errors.New: builds a fundamental error from a message (stack
capture omitted). -/
def pkgNew (message : String) : GoError :=
  .fundamental message

/-- pkg/errors.Wrap: returns nil when err is nil, otherwise wraps err in
withMessage then withStack. -/
def pkgWrap (err : Option GoError) (message : String) : Option GoError :=
  match err with
  | none => none
  | some e => some (.withStack (.withMessage e message))

/-- The `Cause() error` method as seen by pkg/errors' causer-interface
loop: `none` when the dynamic type has no such method, `some r` when it
does and returns r (r itself possibly nil). `withStack` and `withMessage`
return their wrapped error; the package's rich Error returns its `cause`
field; `fundamental` and `plain` have no Cause method. -/
def causeMethod : GoError → Option (Option GoError)
  | .fundamental _ => none
  | .plain _ => none
  | .withStack c => some (some c)
  | .withMessage c _ => some (some c)
  | .rich _ _ _ _ c => some c

/-- One unrolling of pkg/errors.Cause's loop body on a non-nil error:
stop (returning the error itself) when it has no Cause method, otherwise
recurse on what Cause returns (exiting with nil when it returns nil). -/
def causeLoop : GoError → Option GoError
  | .fundamental m => some (.fundamental m)
  | .plain m => some (.plain m)
  | .withStack c => causeLoop c
  | .withMessage c _ => causeLoop c
  | .rich _ _ _ _ none => none
  | .rich _ _ _ _ (some c) => causeLoop c

/-- Cause from src/error.go, proxying pkg/errors.Cause: nil in, nil out;
otherwise run the causer loop. -/
def Cause : Option GoError → Option GoError
  | none => none
  | some e => causeLoop e

/-- The `Error() string` method of each error shape, reading the registry
for the rich Error's label. `none` models the panic when the rich Error's
nil cause is dereferenced by `e.cause.Error()`. -/
def errorStr (pool : Registry) : GoError → Option String
  | .fundamental m => some m
  | .plain m => some m
  | .withStack c => errorStr pool c
  | .withMessage c m => (errorStr pool c).map fun s => m ++ ": " ++ s
  | .rich _ _ _ _ none => none
  | .rich code _ _ _ (some c) =>
      (errorStr pool c).map fun s => CodeString pool code ++ ": " ++ s

/-- The `Cause()` accessor of the rich Error type. The default branch is
unreachable for values built by this package's constructors, which always
return the rich shape. -/
def causeField : GoError → Option GoError
  | .rich _ _ _ _ c => c
  | _ => none

/-- The `Code()` accessor of the rich Error type (default branch
unreachable for constructor outputs). -/
def codeField : GoError → Int
  | .rich c _ _ _ _ => c
  | _ => 0

/-- The `Fix()` accessor of the rich Error type (default branch
unreachable for constructor outputs). -/
def fixField : GoError → String
  | .rich _ _ f _ _ => f
  | _ => ""

/-- The data-list segment of `Friendly()`'s loop: each value rendered
with a leading space, a comma after each except the last, which gets a
period. -/
def dataSuffix : List GoValue → String
  | [] => ""
  | [d] => " " ++ d.render ++ "."
  | d :: rest => " " ++ d.render ++ "," ++ dataSuffix rest

/-- The `Friendly()` method from src/error.go: empty when both the
friendly template and the fix are empty; otherwise the label, ": ", the
template, the rendered data list, and the fix (preceded by a space) when
non-empty. The default branch is unreachable for constructor outputs. -/
def Friendly (pool : Registry) : GoError → String
  | .rich code friendly fix ds _ =>
      if friendly = "" ∧ fix = "" then ""
      else
        let s := CodeString pool code ++ ": " ++ friendly ++ dataSuffix ds
        if fix ≠ "" then s ++ " " ++ fix else s
  | _ => ""

/-- New from src/error.go: a rich Error whose cause is a fresh
pkg/errors fundamental error built from the message. -/
def New (c : Int) (message : String) (data : List GoValue) : GoError :=
  .rich c "" "" data (some (pkgNew message))

/-- The field assignment `err.friendly = friendly` performed by the
Friendly constructors on the value New/Wrap returned. -/
def setFriendly : GoError → String → GoError
  | .rich c _ f d cs, fr => .rich c fr f d cs
  | e, _ => e

/-- The field assignment `err.fix = fix` performed by the Fix
constructors. -/
def setFix : GoError → String → GoError
  | .rich c fr _ d cs, f => .rich c fr f d cs
  | e, _ => e

/-- NewFriendly from src/error.go. -/
def NewFriendly (c : Int) (message friendly : String) (data : List GoValue) : GoError :=
  setFriendly (New c message data) friendly

/-- NewFriendlyFix from src/error.go. -/
def NewFriendlyFix (c : Int) (message friendly fix : String) (data : List GoValue) : GoError :=
  setFix (NewFriendly c message friendly data) fix

/-- Wrap from src/error.go: always returns a rich Error whose cause is
pkg/errors.Wrap of the argument (which is nil when err is nil). -/
def Wrap (c : Int) (err : Option GoError) (message : String) (data : List GoValue) : GoError :=
  .rich c "" "" data (pkgWrap err message)

/-- WrapFriendly from src/error.go. -/
def WrapFriendly (c : Int) (err : Option GoError) (message friendly : String)
    (data : List GoValue) : GoError :=
  setFriendly (Wrap c err message data) friendly

/-- WrapFriendlyFix from src/error.go. -/
def WrapFriendlyFix (c : Int) (err : Option GoError) (message friendly fix : String)
    (data : List GoValue) : GoError :=
  setFix (WrapFriendly c err message friendly data) fix

/-- RegisterCode from src/error.go: fails with a rich InvalidArgs error
when the code is already present (leaving the registry as it was),
otherwise inserts the details. Returns the Go error result paired with
the registry state after the call. -/
def RegisterCode (pool : Registry) (c : Int) (httpStatus : Int) (typeStr : String) :
    Option GoError × Registry :=
  match lookupCode pool c with
  | some _ => (some (New CodeInvalidArgs "already registered" [.int c]), pool)
  | none => (none, pool ++ [(c, ⟨httpStatus, typeStr⟩)])

end QriErrors

namespace QriErrors

/-! ## Helper lemmas -/

theorem intercalate_cons_cons (s a b : String) :
    ∀ (l : List String),
      String.intercalate.go a s (b :: l) = a ++ s ++ String.intercalate.go b s l := by
  intro l
  induction l generalizing a b with
  | nil => simp [String.intercalate.go]
  | cons c l ih =>
    rw [String.intercalate.go]
    rw [ih (a ++ s ++ b) c, ih b c]
    simp [String.append_assoc]

/-- The data segment of the friendly rendering as the claim describes it:
nothing for no data, otherwise a space, the renderings separated by
comma-space, and a closing period. A space before each value with a comma
after all but the last (which gets a period) amounts to exactly this. -/
def friendlyDataClaim (rs : List String) : String :=
  match rs with
  | [] => ""
  | r :: rest => " " ++ String.intercalate ", " (r :: rest) ++ "."

theorem dataSuffix_eq_claim : ∀ (ds : List GoValue),
    dataSuffix ds = friendlyDataClaim (ds.map GoValue.render) := by
  intro ds
  induction ds with
  | nil => rfl
  | cons d rest ih =>
    cases rest with
    | nil => simp [dataSuffix, friendlyDataClaim, String.intercalate, String.intercalate.go]
    | cons e rest2 =>
      simp only [dataSuffix, ih, friendlyDataClaim, List.map, String.intercalate]
      rw [intercalate_cons_cons]
      simp [String.append_assoc]
      rfl

/-! ## Claim theorems -/

/-- C1: for every rich Error whose friendly template or fix is non-empty,
`Friendly()` is the registry label for its code, then ": ", then the
template, then the data values each preceded by a space with a comma
after all but the last (which gets a period), then, when the fix is
non-empty, a space and the fix. -/
theorem friendly_renders_label_template_data_fix
    (pool : Registry) (code : Int) (fr fx : String) (ds : List GoValue)
    (cs : Option GoError) (h : fr ≠ "" ∨ fx ≠ "") :
    Friendly pool (.rich code fr fx ds cs)
      = CodeString pool code ++ ": " ++ fr
          ++ friendlyDataClaim (ds.map GoValue.render)
          ++ (if fx = "" then "" else " " ++ fx) := by
  simp only [Friendly]
  have hcond : ¬ (fr = "" ∧ fx = "") := by tauto
  rw [if_neg hcond, ← dataSuffix_eq_claim]
  by_cases hfx : fx = "" <;> simp [hfx, String.append_assoc]

/-- Witness for C1 at the exact example from the spec: code Forbidden
(label "auth"), the access template, data apples and oranges, and the
logged-in fix. -/
theorem friendly_renders_witness :
    ("you don\x27t have access to the following things:" ≠ "" ∨
      "are you sure you\x27re logged in?" ≠ "")
    ∧ Friendly codePool
        (GoError.rich CodeForbidden
          "you don\x27t have access to the following things:"
          "are you sure you\x27re logged in?"
          [.str "apples", .str "oranges"] (some (.fundamental "forbidden")))
      = "auth: you don\x27t have access to the following things: apples, oranges. are you sure you\x27re logged in?" := by
  refine ⟨Or.inl (by decide), ?_⟩
  have h := friendly_renders_label_template_data_fix codePool CodeForbidden
    "you don\x27t have access to the following things:"
    "are you sure you\x27re logged in?"
    [.str "apples", .str "oranges"] (some (.fundamental "forbidden"))
    (Or.inl (by decide))
  rw [h]
  rfl

end QriErrors

namespace QriErrors

theorem causeLoop_no_causer :
    ∀ (e r : GoError), causeLoop e = some r → causeMethod r = none
  | .fundamental _, _, h => by
      simp only [causeLoop, Option.some.injEq] at h
      subst h; rfl
  | .plain _, _, h => by
      simp only [causeLoop, Option.some.injEq] at h
      subst h; rfl
  | .withStack c, r, h => causeLoop_no_causer c r h
  | .withMessage c _, r, h => causeLoop_no_causer c r h
  | .rich _ _ _ _ none, _, h => by simp [causeLoop] at h
  | .rich _ _ _ _ (some c), r, h => causeLoop_no_causer c r h

/-- C2: the root-cause utility Cause terminates on every error value (it
is a total function here), and any non-nil value it returns exposes no
further cause; on the three-level chain New, Wrap, WrapFriendlyFix it
reaches the innermost fundamental error, which is not a rich Error; a
plain error comes back unchanged and nil comes back nil. -/
theorem cause_returns_root (c1 c2 c3 : Int) (m1 m2 m3 fr fx pm : String)
    (d1 d2 d3 : List GoValue) :
    Cause (some (WrapFriendlyFix c3
        (some (Wrap c2 (some (New c1 m1 d1)) m2 d2)) m3 fr fx d3))
      = some (.fundamental m1)
    ∧ isRich (GoError.fundamental m1) = false
    ∧ Cause (some (.plain pm)) = some (.plain pm)
    ∧ Cause none = none
    ∧ (∀ (e r : GoError), causeLoop e = some r → causeMethod r = none) :=
  ⟨rfl, rfl, rfl, rfl, causeLoop_no_causer⟩

/-- Witness for C2 at the chain from the package test and a plain
error. -/
theorem cause_returns_root_witness :
    Cause (some (WrapFriendlyFix CodeForbidden
        (some (Wrap CodeInvalidArgs (some (New CodeGeneric "so bad" [])) "a" []))
        "m" "f" "x" []))
      = some (.fundamental "so bad")
    ∧ causeMethod (GoError.plain "q") = none := by
  have h := cause_returns_root CodeGeneric CodeInvalidArgs CodeForbidden
    "so bad" "a" "m" "f" "x" "q" [] [] []
  exact ⟨h.1, h.2.2.2.2 (.plain "q") (.plain "q") rfl⟩

/-- C3: RegisterCode fails exactly when the code is already present, and
on that failure the registry is returned unchanged, so a later
CodeHTTPStatus or CodeString lookup still sees the original
registration. -/
theorem registerCode_duplicate_preserves (pool : Registry) (c s : Int) (l : String) :
    ((RegisterCode pool c s l).1.isSome = (lookupCode pool c).isSome)
    ∧ ((lookupCode pool c).isSome = true →
        (RegisterCode pool c s l).2 = pool
        ∧ CodeHTTPStatus (RegisterCode pool c s l).2 c = CodeHTTPStatus pool c
        ∧ CodeString (RegisterCode pool c s l).2 c = CodeString pool c) := by
  cases h : lookupCode pool c with
  | none => simp [RegisterCode, h]
  | some d => simp [RegisterCode, h]

/-- Witness for C3: re-registering CodeForbidden (as the package test
does) fails and leaves its original 403/"auth" details in place. -/
theorem registerCode_duplicate_witness :
    (lookupCode codePool CodeForbidden).isSome = true
    ∧ (RegisterCode codePool CodeForbidden 200 "forbidden").1.isSome = true
    ∧ (RegisterCode codePool CodeForbidden 200 "forbidden").2 = codePool
    ∧ CodeHTTPStatus (RegisterCode codePool CodeForbidden 200 "forbidden").2 CodeForbidden = 403
    ∧ CodeString (RegisterCode codePool CodeForbidden 200 "forbidden").2 CodeForbidden = "auth" := by
  have h := registerCode_duplicate_preserves codePool CodeForbidden 200 "forbidden"
  have h2 := h.2 rfl
  exact ⟨rfl, h.1.trans rfl, h2.1, h2.2.1.trans rfl, h2.2.2.trans rfl⟩

/-- Counterexample to C4 as stated: Wrap with a nil error argument
builds a rich Error whose Cause() IS nil, because pkg/errors.Wrap
returns nil for a nil input. -/
theorem wrap_nil_gives_nil_cause :
    causeField (Wrap CodeGeneric none "oops" []) = none := rfl

/-- C4 amended: every value built by the three New constructors (any
arguments) and by the three Wrap constructors on a NON-nil error has a
non-nil cause. -/
theorem constructors_nonnil_cause (c : Int) (m fr fx : String)
    (d : List GoValue) (e : GoError) :
    (causeField (New c m d)).isSome = true
    ∧ (causeField (NewFriendly c m fr d)).isSome = true
    ∧ (causeField (NewFriendlyFix c m fr fx d)).isSome = true
    ∧ (causeField (Wrap c (some e) m d)).isSome = true
    ∧ (causeField (WrapFriendly c (some e) m fr d)).isSome = true
    ∧ (causeField (WrapFriendlyFix c (some e) m fr fx d)).isSome = true :=
  ⟨rfl, rfl, rfl, rfl, rfl, rfl⟩

/-- C5: for any code absent from the registry (negative values
included), CodeString returns "error" and CodeHTTPStatus returns 500;
both are total functions. -/
theorem code_lookup_defaults (pool : Registry) (c : Int)
    (h : lookupCode pool c = none) :
    CodeString pool c = "error" ∧ CodeHTTPStatus pool c = 500 := by
  simp [CodeString, CodeHTTPStatus, h]

/-- Witness for C5 at the unregistered negative code -1 from the
package test. -/
theorem code_lookup_defaults_witness :
    lookupCode codePool (-1) = none
    ∧ (CodeString codePool (-1) = "error" ∧ CodeHTTPStatus codePool (-1) = 500) :=
  ⟨rfl, code_lookup_defaults codePool (-1) rfl⟩

end QriErrors

namespace QriErrors

/-- C6: whenever the wrapped cause itself renders to a string s, the
rich Error renders to the registry label for its code, then ": ",
then s. -/
theorem error_renders_label_cause (pool : Registry) (code : Int)
    (fr fx : String) (d : List GoValue) (c : GoError) (s : String)
    (h : errorStr pool c = some s) :
    errorStr pool (.rich code fr fx d (some c))
      = some (CodeString pool code ++ ": " ++ s) := by
  simp [errorStr, h]

/-- Witness for C6: New(Generic, "machine error") renders to
"error: machine error". -/
theorem error_renders_witness :
    errorStr codePool (.fundamental "machine error") = some "machine error"
    ∧ errorStr codePool (New CodeGeneric "machine error" []) = some "error: machine error" := by
  refine ⟨rfl, ?_⟩
  have h := error_renders_label_cause codePool CodeGeneric "" "" []
    (.fundamental "machine error") "machine error" rfl
  exact h.trans (by rfl)

theorem friendly_nonempty_aux (pool : Registry) (code : Int) (fr fx : String)
    (ds : List GoValue) (cs : Option GoError) (h : ¬ (fr = "" ∧ fx = "")) :
    Friendly pool (.rich code fr fx ds cs) ≠ "" := by
  intro hEq
  simp only [Friendly, if_neg h] at hEq
  have h2 : (": " : String).length = 2 := rfl
  have h3 : (" " : String).length = 1 := rfl
  have hL := congrArg String.length hEq
  by_cases hfx : fx = ""
  · rw [if_neg (not_not_intro hfx)] at hL
    simp [String.length_append] at hL
    omega
  · rw [if_pos hfx] at hL
    simp [String.length_append] at hL
    omega

/-- C7: Friendly() is empty exactly when both the friendly template and
the fix are empty, whatever the code, data or cause; in particular every
value built with New (which sets neither) has an empty Friendly(). -/
theorem friendly_empty_iff (pool : Registry) (code : Int) (fr fx m : String)
    (ds : List GoValue) (cs : Option GoError) :
    (Friendly pool (.rich code fr fx ds cs) = "" ↔ (fr = "" ∧ fx = ""))
    ∧ Friendly pool (New code m ds) = "" := by
  refine ⟨⟨?_, ?_⟩, rfl⟩
  · intro hEq
    by_contra h
    exact friendly_nonempty_aux pool code fr fx ds cs h hEq
  · intro hc
    simp [Friendly, hc.1, hc.2]

theorem lookupCode_append_self (pool : Registry) (c : Int) (d : codeDetails)
    (h : lookupCode pool c = none) :
    lookupCode (pool ++ [(c, d)]) c = some d := by
  induction pool with
  | nil => simp [lookupCode]
  | cons p rest ih =>
    obtain ⟨k, d'⟩ := p
    by_cases hk : k = c
    · simp [lookupCode, hk] at h
    · simp only [List.cons_append, lookupCode, if_neg hk] at h ⊢
      exact ih h

/-- C8: registering a code that is not yet present succeeds, and the
status and label read back for that code afterwards are exactly the ones
registered. -/
theorem registerCode_fresh_roundtrip (pool : Registry) (c s : Int) (l : String)
    (h : lookupCode pool c = none) :
    (RegisterCode pool c s l).1 = none
    ∧ CodeHTTPStatus (RegisterCode pool c s l).2 c = s
    ∧ CodeString (RegisterCode pool c s l).2 c = l := by
  refine ⟨?_, ?_, ?_⟩ <;>
    simp [RegisterCode, h, CodeHTTPStatus, CodeString,
      lookupCode_append_self pool c _ h]

/-- Witness for C8: registering the fresh code 100 with 504/"database"
(as the package test does) reads back exactly (504, "database"). -/
theorem registerCode_fresh_witness :
    lookupCode codePool 100 = none
    ∧ (RegisterCode codePool 100 504 "database").1 = none
    ∧ CodeHTTPStatus (RegisterCode codePool 100 504 "database").2 100 = 504
    ∧ CodeString (RegisterCode codePool 100 504 "database").2 100 = "database" := by
  have h := registerCode_fresh_roundtrip codePool 100 504 "database" rfl
  exact ⟨rfl, h.1, h.2.1, h.2.2⟩

/-- Counterexample to C9 as stated for the empty fix string: when fix is
"" the code appends no fix segment, so the output ends "oranges." with
no trailing space, while the claimed formula would end "oranges. ". -/
theorem wrapFriendlyFix_empty_fix_cex :
    Friendly codePool (WrapFriendlyFix CodeForbidden (some (.fundamental "x"))
        "forbidden" "you don\x27t have access to the following things:" ""
        [.str "apples", .str "oranges"])
      ≠ "auth: you don\x27t have access to the following things: apples, oranges. " ++ "" := by
  decide

/-- C9 amended: for any non-nil error and any NON-empty fix string, the
WrapFriendlyFix value from the spec example stores the Forbidden code
and the fix verbatim, and renders exactly as the New-family variants
do: "auth: you don\x27t have access to the following things: apples,
oranges. " followed by the fix. -/
theorem wrapFriendlyFix_stores_and_renders (e : GoError) (fx : String) (h : fx ≠ "") :
    codeField (WrapFriendlyFix CodeForbidden (some e) "forbidden"
        "you don\x27t have access to the following things:" fx
        [.str "apples", .str "oranges"]) = CodeForbidden
    ∧ fixField (WrapFriendlyFix CodeForbidden (some e) "forbidden"
        "you don\x27t have access to the following things:" fx
        [.str "apples", .str "oranges"]) = fx
    ∧ Friendly codePool (WrapFriendlyFix CodeForbidden (some e) "forbidden"
        "you don\x27t have access to the following things:" fx
        [.str "apples", .str "oranges"])
      = "auth: you don\x27t have access to the following things: apples, oranges. " ++ fx := by
  refine ⟨rfl, rfl, ?_⟩
  simp only [WrapFriendlyFix, WrapFriendly, Wrap, setFriendly, setFix, Friendly]
  rw [if_neg (by simp), if_pos h]
  rfl

/-- Witness for C9 at the fix string from the package test. -/
theorem wrapFriendlyFix_stores_witness :
    ("are you sure you\x27re logged in?" : String) ≠ ""
    ∧ codeField (WrapFriendlyFix CodeForbidden (some (.fundamental "x")) "forbidden"
        "you don\x27t have access to the following things:"
        "are you sure you\x27re logged in?"
        [.str "apples", .str "oranges"]) = CodeForbidden
    ∧ fixField (WrapFriendlyFix CodeForbidden (some (.fundamental "x")) "forbidden"
        "you don\x27t have access to the following things:"
        "are you sure you\x27re logged in?"
        [.str "apples", .str "oranges"]) = "are you sure you\x27re logged in?"
    ∧ Friendly codePool (WrapFriendlyFix CodeForbidden (some (.fundamental "x")) "forbidden"
        "you don\x27t have access to the following things:"
        "are you sure you\x27re logged in?"
        [.str "apples", .str "oranges"])
      = "auth: you don\x27t have access to the following things: apples, oranges. are you sure you\x27re logged in?" := by
  have h := wrapFriendlyFix_stores_and_renders (.fundamental "x")
    "are you sure you\x27re logged in?" (by decide)
  exact ⟨by decide, h.1, h.2.1, h.2.2.trans (by rfl)⟩

/-- C10: Wrap with a nil error argument returns a rich Error value (not
a Go nil, despite its doc comment) whose Cause() is nil, and whose
Error() dereferences that nil cause and panics (modelled as none)
instead of returning a string. -/
theorem wrap_nil_behavior (pool : Registry) (c : Int) (m : String) (d : List GoValue) :
    isRich (Wrap c none m d) = true
    ∧ causeField (Wrap c none m d) = none
    ∧ errorStr pool (Wrap c none m d) = none :=
  ⟨rfl, rfl, rfl⟩

end QriErrors
